import Mathlib

/-!
Verification development for the amauo / spot-deployer fleet lifecycle
controller.  The definitions below are shallow embeddings of the Python
source: `spot_deployer/commands/nuke.py` (region scan, termination,
state reconciliation) and `src/amauo/manager.py` (external command
gateway, duration parsing, deployment log parsing, progress monitoring).
External effects (the cloud API, subprocess execution, wall-clock time)
are passed in as explicit parameters; everything else follows the source
line by line.
-/

/-! ## Python string primitives used by the source -/

/-- Python whitespace characters recognised by `str.split()` / `str.strip()`
and by the regex class `\s` (ASCII fragment). -/
def isPySpace (c : Char) : Bool :=
  c = ' ' || c = '\t' || c = '\n' || c = '\r' || c = '\x0b' || c = '\x0c'

/-- Does `p` occur at the start of `l`? (helper for substring search). -/
def startsWithChars : List Char → List Char → Bool
  | [], _ => true
  | _ :: _, [] => false
  | p :: ps, c :: cs => p == c && startsWithChars ps cs

/-- Does `p` occur as a contiguous infix of the text? (Python `p in s`). -/
def isSubChars (p : List Char) : List Char → Bool
  | [] => p.isEmpty
  | c :: cs => startsWithChars p (c :: cs) || isSubChars p cs

/-- Python substring test `pat in s`. -/
def strContains (s pat : String) : Bool :=
  isSubChars pat.toList s.toList

/-- Accumulator pass for Python `str.split()` (split on whitespace runs,
no empty tokens). -/
def pySplitAux : List Char → List Char → List (List Char)
  | [], acc => if acc.isEmpty then [] else [acc.reverse]
  | c :: cs, acc =>
      if isPySpace c then
        if acc.isEmpty then pySplitAux cs [] else acc.reverse :: pySplitAux cs []
      else
        pySplitAux cs (c :: acc)

/-- Python `str.split()` with no separator: tokens between whitespace runs. -/
def pySplit (s : String) : List String :=
  (pySplitAux s.toList []).map (fun l => ⟨l⟩)

/-- Python `str.strip()` on a character list: drop leading and trailing
whitespace. -/
def pyStripChars (l : List Char) : List Char :=
  ((l.dropWhile isPySpace).reverse.dropWhile isPySpace).reverse

/-- Python `str.strip()`. -/
def pyStrip (s : String) : String :=
  ⟨pyStripChars s.toList⟩

/-- Python `str.lower()` (ASCII fragment, as used on log text). -/
def pyLower (s : String) : String :=
  s.toLower

/-- Numeric value of a digit string, as Python `int` on a digit-only string. -/
def natOfDigits (l : List Char) : Nat :=
  l.foldl (fun n c => n * 10 + (c.toNat - 48)) 0

/-! ## `manager.py` `_parse_duration_to_seconds` (lines 955-973)

The source compiles the three raw-string patterns `r"(\\d+)h"`,
`r"(\\d+)m"`, `r"(\\d+)s"`.  Inside a raw string `\\` is two backslash
characters, so the regex engine sees `\\` (a literal backslash) followed
by `d+` (a run of literal letter `d`).  We embed exactly that search. -/

/-- Attempt to match the pattern `(\\d+)x` at the head of `l`: a literal
backslash, then one or more literal letters `d`, then the character `x`.
Returns the length of the `d` run on success. -/
def matchBackslashDRun (x : Char) (l : List Char) : Option Nat :=
  match l with
  | '\\' :: rest =>
      let run := rest.takeWhile (fun c => c = 'd')
      if 1 ≤ run.length && ((rest.drop run.length).head? == some x) then
        some run.length
      else
        none
  | _ => none

/-- `re.search` for the pattern `(\\d+)x`: leftmost match. -/
def reSearchBackslashD (x : Char) : List Char → Option Nat
  | [] => none
  | c :: cs =>
      match matchBackslashDRun x (c :: cs) with
      | some n => some n
      | none => reSearchBackslashD x cs

/-- `_parse_duration_to_seconds` (manager.py 955-973).  The three searches
run first; when one of them matches, the captured group starts with a
backslash, so the subsequent `int(...)` raises `ValueError` (modelled as
`Except.error`); when none match, every `if` is skipped and the function
returns the initial `total_seconds = 0`. -/
def parse_duration_to_seconds (duration : String) : Except String Nat :=
  let l := duration.toList
  let hours := reSearchBackslashD 'h' l
  let minutes := reSearchBackslashD 'm' l
  let seconds := reSearchBackslashD 's' l
  match hours with
  | some _ => .error "ValueError"
  | none =>
    match minutes with
    | some _ => .error "ValueError"
    | none =>
      match seconds with
      | some _ => .error "ValueError"
      | none => .ok 0

/-! ## `manager.py` `_parse_deployment_log_line` (lines 478-493)

Pattern: `\(([^,]+),\s*rank=(\d+),\s*pid=\d+,\s*ip=([^)]+)\)\s*(.*)`,
applied with `re.match` (anchored at the start, prefix match).  Each
greedy piece is followed by a delimiter excluded from its class, so the
regex is equivalent to the deterministic parser below. -/

/-- A parsed deployment log event (the dict built at manager.py 486-492,
minus the wall-clock timestamp, which the caller supplies). -/
structure LogEvent where
  node : String
  rank : Nat
  ip : String
  message : String
deriving DecidableEq, Repr

/-- Expect a literal character sequence at the head of the input; return
the remainder. -/
def expectChars : List Char → List Char → Option (List Char)
  | [], l => some l
  | _ :: _, [] => none
  | p :: ps, c :: cs => if p = c then expectChars ps cs else none

/-- Take a non-empty maximal run of characters satisfying `p`; return the
run and the remainder. -/
def takeRun1 (p : Char → Bool) (l : List Char) : Option (List Char × List Char) :=
  let run := l.takeWhile p
  if run.isEmpty then none else some (run, l.drop run.length)

/-- `_parse_deployment_log_line` (manager.py 478-493). -/
def parse_deployment_log_line (line : String) : Option LogEvent := do
  let r1 ← expectChars ['('] line.toList
  let (node, r2) ← takeRun1 (fun c => c ≠ ',') r1
  let r3 ← expectChars [','] r2
  let r4 := r3.dropWhile isPySpace
  let r5 ← expectChars "rank=".toList r4
  let (digits, r6) ← takeRun1 Char.isDigit r5
  let r7 ← expectChars [','] r6
  let r8 := r7.dropWhile isPySpace
  let r9 ← expectChars "pid=".toList r8
  let (_, r10) ← takeRun1 Char.isDigit r9
  let r11 ← expectChars [','] r10
  let r12 := r11.dropWhile isPySpace
  let r13 ← expectChars "ip=".toList r12
  let (ip, r14) ← takeRun1 (fun c => c ≠ ')') r13
  let r15 ← expectChars [')'] r14
  let r16 := r15.dropWhile isPySpace
  let msg := r16.takeWhile (fun c => c ≠ '\n')
  some { node := ⟨node⟩, rank := natOfDigits digits, ip := ⟨ip⟩,
         message := ⟨pyStripChars msg⟩ }

/-! ## `nuke.py` fleet scanner (lines 39-75) -/

/-- A normalized instance record (the dict built at nuke.py 58-68). -/
structure InstanceRec where
  id : String
  region : String
  state : String
  type : String
  public_ip : String
  launch_time : String
  tags : List (String × String)
deriving DecidableEq, Repr

/-- A raw EC2 instance as it appears in a `describe_instances` reservation:
optional fields are absent keys in the response dict. -/
structure RawInstance where
  instanceId : String
  stateName : String
  instanceType : Option String
  publicIp : Option String
  launchTime : Option String
  tags : List (String × String)
deriving DecidableEq, Repr

/-- Outcome of the region-scoped `describe_instances` call: a response, a
botocore `ClientError` with an error code, or any other exception. -/
inductive ScanApiResult where
  | ok (reservations : List (List RawInstance))
  | clientError (code msg : String)
  | failure (msg : String)

/-- Normalization of one raw instance (nuke.py 58-68): absent fields are
substituted with "unknown" / "N/A". -/
def normalizeInstance (region : String) (r : RawInstance) : InstanceRec :=
  { id := r.instanceId
    region := region
    state := r.stateName
    type := r.instanceType.getD "unknown"
    public_ip := r.publicIp.getD "N/A"
    launch_time := r.launchTime.getD "unknown"
    tags := r.tags }

/-- `find_spot_instances_in_region` (nuke.py 39-75): collects normalized
records over all reservations; a `ClientError` with the code
`UnauthorizedOperation` is converted to an empty success; every other
exception propagates to the caller. -/
def find_spot_instances_in_region (api : String → ScanApiResult)
    (region : String) : Except String (List InstanceRec) :=
  match api region with
  | .ok reservations =>
      .ok (reservations.flatMap (fun insts => insts.map (normalizeInstance region)))
  | .clientError code msg =>
      if code = "UnauthorizedOperation" then .ok [] else .error msg
  | .failure msg => .error msg

/-! ## `nuke.py` region-parallel executor (lines 124-144 and 204-234)

The `ThreadPoolExecutor` / `as_completed` pattern submits one future per
region and consumes each future exactly once, in completion order; a
worker's exception is captured per region when its future's `result()`
is read.  The completion order is an arbitrary permutation of the
submitted regions, passed here as the `order` argument. -/

/-- One per-region task outcome: a success value or a captured error. -/
structure RegionTaskResult (T : Type) where
  region : String
  value : Option T
  error : Option String
deriving Repr

/-- Consuming one region's future: value, or captured exception text. -/
def taskResult {T : Type} (f : String → Except String T) (r : String) :
    RegionTaskResult T :=
  match f r with
  | .ok v => ⟨r, some v, none⟩
  | .error e => ⟨r, none, some e⟩

/-- The fan-out / fan-in engine of nuke.py 124-144: one result per
submitted region, in completion order. -/
def run_over_regions {T : Type} (f : String → Except String T)
    (order : List String) : List (RegionTaskResult T) :=
  order.map (taskResult f)

/-- The phase-1 aggregation loop of `cmd_nuke` (nuke.py 121-144):
successful scans extend `all_instances`, exceptions append to
`region_errors`, in completion order. -/
def scanPhase (api : String → ScanApiResult) :
    List String → List InstanceRec × List (String × String)
  | [] => ([], [])
  | r :: rest =>
      let others := scanPhase api rest
      match find_spot_instances_in_region api r with
      | .ok insts => (insts ++ others.1, others.2)
      | .error e => (others.1, (r, e) :: others.2)

/-! ## `nuke.py` fleet terminator (lines 78-97) -/

/-- Outcome of the EC2 `terminate_instances` call: the
`TerminatingInstances` list of (InstanceId, CurrentState.Name) pairs, or
any exception. -/
inductive TerminateApiResult where
  | ok (terminating : List (String × String))
  | failure (msg : String)

/-- `terminate_instances_in_region` (nuke.py 78-97): empty input is a
no-op before any API call; on success the result map carries the
cloud-reported current state name per reported instance; when the call
raises, every requested id is mapped to "ERROR: " plus the exception
text. -/
def terminate_instances_in_region (api : List String → TerminateApiResult)
    (instance_ids : List String) : List (String × String) :=
  if instance_ids.isEmpty then []
  else
    match api instance_ids with
    | .ok terminating => terminating
    | .failure e => instance_ids.map (fun i => (i, "ERROR: " ++ e))

/-! ## `nuke.py` local state reconciliation (lines 193-199 and 244-256) -/

/-- Append one instance id to its region's group, creating the group at
the end on first sight (Python dict insertion order, nuke.py 194-199). -/
def addToGroups (gs : List (String × List String)) (region id : String) :
    List (String × List String) :=
  match gs with
  | [] => [(region, [id])]
  | (r, ids) :: rest =>
      if r = region then (r, ids ++ [id]) :: rest
      else (r, ids) :: addToGroups rest region id

/-- `termination_groups` (nuke.py 194-199): instance ids grouped by
region. -/
def terminationGroups (all_instances : List InstanceRec) :
    List (String × List String) :=
  all_instances.foldl (fun gs i => addToGroups gs i.region i.id) []

/-- `termination_groups.get(r, [])`. -/
def groupsLookup (gs : List (String × List String)) (r : String) : List String :=
  match gs.find? (fun p => p.1 == r) with
  | some p => p.2
  | none => []

/-- The flat list `[i for r in future_to_region.values() for i in
termination_groups.get(r, [])]` (nuke.py 251): `future_to_region`'s
values are exactly the keys of `termination_groups`. -/
def submittedIds (all_instances : List InstanceRec) : List String :=
  (terminationGroups all_instances).flatMap
    (fun p => groupsLookup (terminationGroups all_instances) p.1)

/-- `terminated_ids` (nuke.py 247-252): the set comprehension keeps the
ids of scanned instances that are NOT in the flat submitted-batch list. -/
def terminated_ids (all_instances : List InstanceRec) : List String :=
  ((all_instances.filter
      (fun i => !(submittedIds all_instances).contains i.id)).map
    (fun i => i.id))

/-- `remaining_instances` and the save (nuke.py 253-256): keep every
persisted record whose id is not in `terminated_ids`. -/
def nukeReconcile (current all_instances : List InstanceRec) :
    List InstanceRec :=
  current.filter (fun i => !(terminated_ids all_instances).contains i.id)

/-! ## `manager.py` external command gateway `run_sky_cmd` (lines 256-291) -/

/-- What the underlying `subprocess.run` invocation does: completes with
an exit code and captured streams, exceeds the timeout, or raises. -/
inductive ExecOutcome where
  | completed (returncode : Int) (stdout stderr : String)
  | timedOut
  | raised (msg : String)

/-- An ASCII single-quote character, used in the timeout message. -/
def squote : String := ⟨[Char.ofNat 39]⟩

/-- The timeout error string built at manager.py 285. -/
def timeoutMessage (args : List String) (timeout : Nat) : String :=
  "Command " ++ squote ++ "sky " ++ String.intercalate " " args ++ squote ++
    " timed out after " ++ toString timeout ++ " seconds"

/-- `run_sky_cmd` (manager.py 256-291): container start failure, completed
subprocess (success iff exit code 0, streams passed through), timeout
(distinguishable message), and any other exception (its text) all map to
a returned `(ok, stdout, stderr)` triple; nothing escapes. -/
def run_sky_cmd (containerOk : Bool) (args : List String) (timeout : Nat)
    (execr : ExecOutcome) : Bool × String × String :=
  if !containerOk then (false, "", "Failed to start container")
  else
    match execr with
    | .completed rc out err => (rc == 0, out, err)
    | .timedOut => (false, "", timeoutMessage args timeout)
    | .raised m => (false, "", m)

/-! ## `manager.py` node table update (lines 595-624) -/

/-- One entry of the monitoring node table (the dict created at
manager.py 605-611). -/
structure NodeInfo where
  node : String
  rank : Nat
  ip : String
  recent_messages : List String
  timestamp : Nat
deriving DecidableEq, Repr

/-- The table key `f"{node}-{rank}"` (manager.py 600-602). -/
def nodeKey (node : String) (rank : Nat) : String :=
  node ++ "-" ++ toString rank

/-- The bounded recent-messages buffer step (manager.py 620-624): append,
then pop the oldest entry when the length exceeds 5. -/
def pushRecent (msgs : List String) (m : String) : List String :=
  let appended := msgs ++ [m]
  if 5 < appended.length then appended.drop 1 else appended

/-- Processing one parsed log event against the node table
(manager.py 604-624): create the entry on first sight (dict insertion at
the end), then update ip and timestamp and push the message. -/
def updateNodes (nodes : List (String × NodeInfo)) (ev : LogEvent)
    (now : Nat) : List (String × NodeInfo) :=
  let key := nodeKey ev.node ev.rank
  let nodes1 :=
    if nodes.any (fun p => p.1 == key) then nodes
    else nodes ++ [(key, ⟨ev.node, ev.rank, ev.ip, [], now⟩)]
  nodes1.map (fun p =>
    if p.1 == key then
      (p.1, { p.2 with ip := ev.ip, timestamp := now,
                       recent_messages := pushRecent p.2.recent_messages ev.message })
    else p)

/-! ## `manager.py` streaming progress monitor (lines 641-867)

The loop's observable inputs at each tick are the three gateway calls:
`sky status`, `sky queue <cluster>` and `sky logs <cluster> --tail=3`,
plus the wall-clock time read at the loop condition.  Rendering calls
(the `Live` panel updates) are the excluded display sink.  A tick whose
body raises is caught by the inner `except` (manager.py 836-842), which
renders a warning panel and leaves the loop state unchanged. -/

/-- The gateway outputs one tick can observe (stderr is discarded by the
monitor). -/
structure TickPolls where
  statusOk : Bool
  statusOut : String
  queue : String → Bool × String
  logs : String → Bool × String

/-- One tick's behaviour: the body raises, or the polls answer. -/
inductive TickInput where
  | raise (msg : String)
  | polls (p : TickPolls)

/-- The monitor's mutable state across ticks (manager.py 653-656). -/
structure MonState where
  cluster : Option String
  completed : Bool

/-- The completion keywords scanned in the tailed log text
(manager.py 776-780). -/
def completionKeywords : List String :=
  ["deployment complete", "cluster is running", "node is ready"]

/-- `any(keyword in log_stdout.lower() for keyword in [...])`
(manager.py 773-781). -/
def hasCompletionKeyword (s : String) : Bool :=
  completionKeywords.any (fun k => strContains (pyLower s) k)

/-- The job-queue scan (manager.py 699-804): every queue line naming the
job with at least 7 whitespace-separated fields is inspected; RUNNING
triggers a log tail and the keyword check, SUCCEEDED and FAILED set the
completion flag directly. -/
def queueLoop (jobName cluster : String) (p : TickPolls) :
    List String → Bool → Bool
  | [], completed => completed
  | q :: rest, completed =>
      let completed1 :=
        if strContains q jobName then
          let qparts := pySplit q
          if 7 ≤ qparts.length then
            let status := qparts.getD 6 ""
            if status = "RUNNING" then
              let lout := (p.logs cluster).2
              if hasCompletionKeyword lout then true else completed
            else if status = "SUCCEEDED" then true
            else if status = "FAILED" then true
            else completed
          else completed
        else completed
      queueLoop jobName cluster p rest completed1

/-- The status-line scan (manager.py 666-805): the first line containing
"sky-" and "INIT" or "UP" with a non-empty split is processed — the
cluster name latches on first sight, an "UP" line triggers the job-queue
poll — and then the loop breaks. -/
def statusLoop (jobName : String) (st : MonState) (p : TickPolls) :
    List String → MonState
  | [] => st
  | line :: rest =>
      if strContains line "sky-" && (strContains line "INIT" || strContains line "UP") then
        match pySplit line with
        | [] => statusLoop jobName st p rest
        | potential :: _ =>
            let cluster :=
              match st.cluster with
              | none => some potential
              | some c => some c
            let completed :=
              if strContains line "UP" then
                let qr := p.queue (cluster.getD potential)
                if qr.1 && !(qr.2 == "") then
                  queueLoop jobName (cluster.getD potential) p
                    (qr.2.splitOn "\n") st.completed
                else st.completed
              else st.completed
            { cluster := cluster, completed := completed }
      else statusLoop jobName st p rest

/-- One tick of the monitor loop body (manager.py 659-842): a raised body
leaves the state unchanged (caught by the inner `except`); otherwise a
successful non-empty `sky status` poll drives the status-line scan. -/
def tickBody (jobName : String) (st : MonState) (inp : TickInput) : MonState :=
  match inp with
  | .raise _ => st
  | .polls p =>
      if p.statusOk && !(p.statusOut == "") then
        statusLoop jobName st p (p.statusOut.splitOn "\n")
      else st

/-- How the monitor ends: the completion panel or the timeout panel
(manager.py 846-862). -/
inductive MonOutcome where
  | completed
  | timedOut
deriving DecidableEq, Repr

/-- The hard wall-clock ceiling `timeout = 20 * 60` (manager.py 652). -/
def monitorCeiling : Nat := 20 * 60

/-- The `while time.time() - start_time < timeout and not
completion_detected` loop (manager.py 658-844).  Each list element
carries the wall-clock reading taken at the loop condition and that
tick's poll behaviour; `none` means the supplied schedule ran out while
the loop still wanted to run. -/
def monitorLoop (jobName : String) (startTime : Nat) (st : MonState) :
    List (Nat × TickInput) → Option MonOutcome
  | [] => none
  | (now, inp) :: rest =>
      if now - startTime < monitorCeiling ∧ st.completed = false then
        monitorLoop jobName startTime (tickBody jobName st inp) rest
      else
        some (if st.completed then .completed else .timedOut)

/-- `_monitor_deployment_progress_streaming` (manager.py 641-867): the
loop starts with no cluster latched and completion undetected. -/
def monitor_deployment_progress_streaming (jobName : String)
    (startTime : Nat) (ticks : List (Nat × TickInput)) : Option MonOutcome :=
  monitorLoop jobName startTime ⟨none, false⟩ ticks

/-! ## Claim theorems -/

/-- C2: the claim states the duration parser maps "5m30s" to 330, "2h15m"
to 8100 and "45s" to 45 seconds.  The source's raw-string patterns
`r"(\\d+)h"` etc. contain an escaped backslash, so they look for a
literal backslash followed by letters `d`; no ordinary duration string
matches, and the function returns 0 for all three inputs, contradicting
its own docstring ("Parse duration string like '5m30s' to total
seconds"). -/
theorem C2_duration_parser_returns_zero :
    parse_duration_to_seconds "5m30s" = .ok 0 ∧
    parse_duration_to_seconds "2h15m" = .ok 0 ∧
    parse_duration_to_seconds "45s" = .ok 0 :=
  ⟨rfl, rfl, rfl⟩

/-- C8: the log-line parser maps
"(worker8, rank=8, pid=2816, ip=172.31.41.250) deployment complete" to an
event with node "worker8", rank 8, ip "172.31.41.250" and message
"deployment complete", and maps a line missing the rank field to no
event (the parser is a total function into `Option`, so no input is an
error). -/
theorem C8_log_line_parsing :
    parse_deployment_log_line
        "(worker8, rank=8, pid=2816, ip=172.31.41.250) deployment complete" =
      some { node := "worker8", rank := 8, ip := "172.31.41.250",
             message := "deployment complete" } ∧
    parse_deployment_log_line
        "(worker8, pid=2816, ip=172.31.41.250) deployment complete" = none :=
  ⟨rfl, rfl⟩

/-- A concrete persisted instance used to exercise the nuke
reconciliation. -/
def i0123 : InstanceRec :=
  ⟨"i-0123456789", "us-east-1", "running", "t3.micro", "1.2.3.4",
   "2024-01-01 00:00:00+00:00", []⟩

/-- C1: the claim states that after termination every id that was part of
a submitted termination batch is removed from the persisted list.  In the
source the membership test is inverted (`if inst["id"] not in [...]`,
nuke.py 250-251), so `terminated_ids` collects the scanned ids NOT in any
batch — always the empty set, because the batches are built from exactly
the scanned instances.  Here `i0123` is in the submitted batch, yet the
reconciled state still contains it: the code removes nothing. -/
theorem C1_reconcile_keeps_batched_id :
    i0123.id ∈ submittedIds [i0123] ∧
    terminated_ids [i0123] = [] ∧
    nukeReconcile [i0123] [i0123] = [i0123] := by
  refine ⟨?_, rfl, rfl⟩
  decide

/-- C3: when the region-level termination call fails as a whole batch, the
returned map has exactly the requested ids as keys, each mapped to an
error string carrying the failure detail. -/
theorem C3_terminate_whole_batch_failure
    (api : List String → TerminateApiResult) (ids : List String)
    (emsg : String) (h1 : ids ≠ []) (h2 : api ids = .failure emsg) :
    ((terminate_instances_in_region api ids).map Prod.fst = ids) ∧
    (∀ p ∈ terminate_instances_in_region api ids,
      p.2 = "ERROR: " ++ emsg) := by
  have hne : ids.isEmpty = false := by
    cases ids with
    | nil => cases h1 rfl
    | cons a l => rfl
  unfold terminate_instances_in_region
  rw [hne, h2]
  constructor
  · simp [Function.comp_def]
  · intro p hp
    simp only [Bool.false_eq_true, if_false, List.mem_map] at hp
    obtain ⟨i, _, rfl⟩ := hp
    rfl

/-- C3 witness: the whole-batch failure theorem at a concrete two-id
batch. -/
theorem C3_terminate_whole_batch_failure_witness :
    ((terminate_instances_in_region (fun _ => .failure "RequestLimitExceeded")
        ["i-1", "i-2"]).map Prod.fst = ["i-1", "i-2"]) ∧
    (∀ p ∈ terminate_instances_in_region
        (fun _ => .failure "RequestLimitExceeded") ["i-1", "i-2"],
      p.2 = "ERROR: " ++ "RequestLimitExceeded") :=
  C3_terminate_whole_batch_failure (fun _ => .failure "RequestLimitExceeded")
    ["i-1", "i-2"] "RequestLimitExceeded" (by decide) rfl

/-- The status shape asserted by the claim: literally "terminated", or an
"error:"-prefixed detail string. -/
def claimStatusShape (s : String) : Bool :=
  s == "terminated" || startsWithChars "error:".toList s.toList

/-- C7 counterexample: on the success path the code passes the
cloud-reported current state name through unchanged (nuke.py 91-92); EC2
reports "shutting-down" for a just-terminated instance, which is neither
"terminated" nor an "error:<detail>" string, so the claimed status
alphabet is wrong. -/
theorem C7_status_shape_counterexample :
    terminate_instances_in_region (fun _ => .ok [("i-1", "shutting-down")])
        ["i-1"] = [("i-1", "shutting-down")] ∧
    claimStatusShape "shutting-down" = false :=
  ⟨rfl, rfl⟩

/-- C7 amended: every outcome of a termination request is either an entry
of the cloud response, carrying the cloud-reported current state name
(success path), or carries status "ERROR: " plus the failure detail
(whole-batch failure path), and on the failure path there is exactly one
outcome per requested id, in order. -/
theorem C7_termination_outcome_statuses
    (api : List String → TerminateApiResult) (ids : List String) :
    (∀ p ∈ terminate_instances_in_region api ids,
      (∃ sts, api ids = .ok sts ∧ p ∈ sts) ∨
      (∃ e, api ids = .failure e ∧ p.1 ∈ ids ∧ p.2 = "ERROR: " ++ e)) ∧
    (∀ e, api ids = .failure e → ids ≠ [] →
      (terminate_instances_in_region api ids).map Prod.fst = ids) := by
  constructor
  · intro p hp
    unfold terminate_instances_in_region at hp
    by_cases he : ids.isEmpty
    · rw [if_pos he] at hp
      cases hp
    · rw [if_neg he] at hp
      cases ha : api ids with
      | ok sts =>
          rw [ha] at hp
          exact Or.inl ⟨sts, rfl, hp⟩
      | failure e =>
          rw [ha] at hp
          simp only [List.mem_map] at hp
          obtain ⟨i, hi, rfl⟩ := hp
          exact Or.inr ⟨e, rfl, hi, rfl⟩
  · intro e ha h1
    have hne : ids.isEmpty = false := by
      cases ids with
      | nil => cases h1 rfl
      | cons a l => rfl
    unfold terminate_instances_in_region
    rw [hne, ha]
    simp [Function.comp_def]

/-- C7 witness: the amended statuses theorem applied on the whole-batch
failure path for a concrete one-id batch. -/
theorem C7_termination_outcome_statuses_witness :
    ((∃ sts, (fun _ : List String => TerminateApiResult.failure "boom") ["i-1"] = .ok sts ∧
        ("i-1", "ERROR: boom") ∈ sts) ∨
      (∃ e, (fun _ : List String => TerminateApiResult.failure "boom") ["i-1"] = .failure e ∧
        "i-1" ∈ ["i-1"] ∧ "ERROR: boom" = "ERROR: " ++ e)) ∧
    (terminate_instances_in_region (fun _ => .failure "boom") ["i-1"]).map
        Prod.fst = ["i-1"] := by
  have h := C7_termination_outcome_statuses
    (fun _ => TerminateApiResult.failure "boom") ["i-1"]
  exact ⟨h.1 ("i-1", "ERROR: boom") (by decide), h.2 "boom" rfl (by decide)⟩

/-- C5: the fan-out engine produces exactly one per-region outcome for
each submitted region — the result regions are a permutation of the
submitted set, one result per region task — and every outcome is either
a success value or a captured error; a throwing worker only affects its
own result. -/
theorem C5_one_result_per_region {T : Type} (regions order : List String)
    (f : String → Except String T) (h : order.Perm regions) :
    ((run_over_regions f order).map (fun res => res.region)).Perm regions ∧
    (run_over_regions f order).length = regions.length ∧
    (∀ res ∈ run_over_regions f order,
      (∃ v, res.value = some v ∧ res.error = none) ∨
      (∃ e, res.value = none ∧ res.error = some e)) := by
  have hmap : (run_over_regions f order).map (fun res => res.region) = order := by
    unfold run_over_regions
    rw [List.map_map]
    have hcomp : ((fun res : RegionTaskResult T => res.region) ∘ taskResult f) = id := by
      funext r
      simp only [Function.comp_apply, taskResult, id_eq]
      cases f r <;> rfl
    rw [hcomp, List.map_id]
  refine ⟨by rw [hmap]; exact h, ?_, ?_⟩
  · unfold run_over_regions
    rw [List.length_map]
    exact h.length_eq
  · intro res hres
    unfold run_over_regions at hres
    obtain ⟨r, _, rfl⟩ := List.mem_map.mp hres
    unfold taskResult
    cases hf : f r with
    | ok v => exact Or.inl ⟨v, rfl, rfl⟩
    | error e => exact Or.inr ⟨e, rfl, rfl⟩

/-- A concrete worker for the C5 witness: one region succeeds, the other
throws. -/
def fC5 : String → Except String Nat :=
  fun r => if r = "us-east-1" then .ok 2 else .error "API rate exceeded"

/-- C5 witness: the engine applied to two concrete regions, one of whose
workers throws. -/
theorem C5_one_result_per_region_witness :
    ((run_over_regions fC5 ["us-east-1", "eu-west-1"]).map
        (fun res => res.region)).Perm ["us-east-1", "eu-west-1"] ∧
    (run_over_regions fC5 ["us-east-1", "eu-west-1"]).length =
      (["us-east-1", "eu-west-1"] : List String).length ∧
    (∀ res ∈ run_over_regions fC5 ["us-east-1", "eu-west-1"],
      (∃ v, res.value = some v ∧ res.error = none) ∨
      (∃ e, res.value = none ∧ res.error = some e)) :=
  C5_one_result_per_region ["us-east-1", "eu-west-1"]
    ["us-east-1", "eu-west-1"] fC5 (List.Perm.refl _)

/-- The instances contributed by one region's scan outcome to
`all_instances`: the scanned list on success, nothing on a captured
error. -/
def exceptInstances : Except String (List InstanceRec) → List InstanceRec
  | .ok l => l
  | .error _ => []

/-- The aggregated instance list is the concatenation, in completion
order, of each region's successful scan results. -/
theorem scanPhase_fst (api : String → ScanApiResult) (order : List String) :
    (scanPhase api order).1 =
      order.flatMap (fun r => exceptInstances (find_spot_instances_in_region api r)) := by
  induction order with
  | nil => rfl
  | cons r rest ih =>
      simp only [scanPhase, List.flatMap_cons]
      cases h : find_spot_instances_in_region api r with
      | ok insts => simp [h, exceptInstances, ih]
      | error e => simp [h, exceptInstances, ih]

/-- When every region's scan succeeds (including auth-denied regions,
which return empty successes), no region error is recorded. -/
theorem scanPhase_snd_nil (api : String → ScanApiResult) (order : List String)
    (h : ∀ r ∈ order, ∃ l, find_spot_instances_in_region api r = .ok l) :
    (scanPhase api order).2 = [] := by
  induction order with
  | nil => rfl
  | cons r rest ih =>
      obtain ⟨l, hl⟩ := h r (List.mem_cons_self r rest)
      have hrest := ih (fun r2 hr2 => h r2 (List.mem_cons_of_mem r hr2))
      simp [scanPhase, hl, hrest]

/-- First raw instance returned by region us-east-1 in the C4 scenario. -/
def rawA1 : RawInstance :=
  ⟨"i-0a1", "running", some "t3.micro", some "54.1.2.3",
   some "2024-01-01 00:00:00+00:00", [("Name", "node-a")]⟩

/-- Second raw instance returned by region us-east-1 in the C4 scenario
(all optional fields absent). -/
def rawA2 : RawInstance := ⟨"i-0a2", "pending", none, none, none, []⟩

/-- The C4 cloud behaviour: region us-east-1 returns two instances, every
other region raises an authorization-denied `ClientError`. -/
def apiC4 : String → ScanApiResult := fun r =>
  if r = "us-east-1" then .ok [[rawA1, rawA2]]
  else .clientError "UnauthorizedOperation"
    "You are not authorized to perform this operation."

/-- C4: a region whose scan raises authorization-denied is an empty
success — it contributes no instances and no error entry — so scanning
region A (two instances) together with denied region B aggregates
exactly A's two normalized records, in either completion order, with
zero region errors. -/
theorem C4_auth_denied_empty_success (order : List String)
    (h : order.Perm ["us-east-1", "eu-west-1"]) :
    find_spot_instances_in_region apiC4 "eu-west-1" = .ok [] ∧
    (scanPhase apiC4 order).1.Perm
      [normalizeInstance "us-east-1" rawA1, normalizeInstance "us-east-1" rawA2] ∧
    (scanPhase apiC4 order).2 = [] := by
  refine ⟨rfl, ?_, ?_⟩
  · rw [scanPhase_fst]
    have h2 := h.flatMap_right
      (fun r => exceptInstances (find_spot_instances_in_region apiC4 r))
    have h3 : (["us-east-1", "eu-west-1"] : List String).flatMap
        (fun r => exceptInstances (find_spot_instances_in_region apiC4 r)) =
        [normalizeInstance "us-east-1" rawA1, normalizeInstance "us-east-1" rawA2] := by
      rfl
    rw [h3] at h2
    exact h2
  · apply scanPhase_snd_nil
    intro r hr
    have hr2 : r ∈ (["us-east-1", "eu-west-1"] : List String) := h.subset hr
    simp only [List.mem_cons, List.not_mem_nil, or_false] at hr2
    rcases hr2 with rfl | rfl
    · exact ⟨_, rfl⟩
    · exact ⟨[], rfl⟩

/-- C4 witness: the scenario at the submission order itself. -/
theorem C4_auth_denied_empty_success_witness :
    find_spot_instances_in_region apiC4 "eu-west-1" = .ok [] ∧
    (scanPhase apiC4 ["us-east-1", "eu-west-1"]).1.Perm
      [normalizeInstance "us-east-1" rawA1, normalizeInstance "us-east-1" rawA2] ∧
    (scanPhase apiC4 ["us-east-1", "eu-west-1"]).2 = [] :=
  C4_auth_denied_empty_success ["us-east-1", "eu-west-1"] (List.Perm.refl _)

/-- A pattern starting a text extended on the right still starts it. -/
theorem startsWithChars_self_append (p m : List Char) :
    startsWithChars p (p ++ m) = true := by
  induction p with
  | nil => rfl
  | cons c cs ih => simp [startsWithChars, ih]

/-- A pattern starting a text occurs in it. -/
theorem isSubChars_of_startsWith (p t : List Char)
    (h : startsWithChars p t = true) : isSubChars p t = true := by
  cases t with
  | nil =>
      cases p with
      | nil => rfl
      | cons c cs => simp [startsWithChars] at h
  | cons c cs => simp [isSubChars, h]

/-- An occurrence survives one extra leading character. -/
theorem isSubChars_cons (p : List Char) (c : Char) (rest : List Char)
    (h : isSubChars p rest = true) : isSubChars p (c :: rest) = true := by
  simp [isSubChars, h]

/-- An occurrence survives extending the text on the left. -/
theorem isSubChars_append_left (p m : List Char)
    (hm : isSubChars p m = true) (l : List Char) :
    isSubChars p (l ++ m) = true := by
  induction l with
  | nil => exact hm
  | cons c cs ih => simp [isSubChars, ih]

/-- The gateway's timeout message always embeds the distinguishable
"timed out" marker that `get_sky_cluster_name` and
`_extract_node_info_from_logs` test for. -/
theorem timeoutMessage_contains_timed_out (args : List String) (t : Nat) :
    strContains (timeoutMessage args t) "timed out" = true := by
  show isSubChars ("timed out".toList) ((timeoutMessage args t).toList) = true
  have hdata : (timeoutMessage args t).toList =
      "Command ".toList ++ (squote.toList ++ ("sky ".toList ++
        ((String.intercalate " " args).toList ++ (squote.toList ++
          (" timed out after ".toList ++
            ((toString t).toList ++ " seconds".toList)))))) := by
    simp [timeoutMessage, String.toList, String.data_append, List.append_assoc]
  rw [hdata]
  apply isSubChars_append_left
  apply isSubChars_append_left
  apply isSubChars_append_left
  apply isSubChars_append_left
  apply isSubChars_append_left
  have hcore : (" timed out after ".toList ++
      ((toString t).toList ++ " seconds".toList)) =
      ' ' :: ("timed out".toList ++ (" after ".toList ++
        ((toString t).toList ++ " seconds".toList))) := rfl
  rw [hcore]
  apply isSubChars_cons
  exact isSubChars_of_startsWith _ _ (startsWithChars_self_append _ _)

/-- C6 counterexample: a subprocess that exits non-zero with an empty
stderr is a failure (`ok = false`) whose error detail is NOT populated —
the gateway passes stderr through unchanged (manager.py 277) — and the
returned triple carries no elapsed time at all.  This refutes the claim
that every failure yields a populated error detail together with the
elapsed time. -/
theorem C6_nonzero_exit_empty_stderr :
    run_sky_cmd true ["status"] 10 (.completed 1 "partial output" "") =
      (false, "partial output", "") ∧
    ((run_sky_cmd true ["status"] 10 (.completed 1 "partial output" "")).2.2).length = 0 :=
  ⟨rfl, rfl⟩

/-- C6 amended: the gateway never raises — every invocation returns an
`(ok, stdout, stderr)` triple — with container-start failure, timeout and
raised exceptions all mapped to `ok = false`; a non-zero exit maps to
`ok = false` with the subprocess stderr passed through (possibly empty);
on timeout the error string distinguishably embeds "timed out"; the
triple does not include the elapsed time, which is only logged. -/
theorem C6_gateway_outcomes (containerOk : Bool) (args : List String)
    (timeout : Nat) (execr : ExecOutcome) :
    (containerOk = false →
      run_sky_cmd containerOk args timeout execr =
        (false, "", "Failed to start container")) ∧
    (∀ rc out err, execr = .completed rc out err →
      run_sky_cmd true args timeout execr = ((rc == 0 : Bool), out, err)) ∧
    (execr = .timedOut →
      run_sky_cmd true args timeout execr =
        (false, "", timeoutMessage args timeout) ∧
      strContains (timeoutMessage args timeout) "timed out" = true) ∧
    (∀ m, execr = .raised m →
      run_sky_cmd true args timeout execr = (false, "", m)) := by
  refine ⟨?_, ?_, ?_, ?_⟩
  · intro h
    subst h
    rfl
  · intro rc out err h
    subst h
    rfl
  · intro h
    subst h
    exact ⟨rfl, timeoutMessage_contains_timed_out args timeout⟩
  · intro m h
    subst h
    rfl

/-- C6 witness: the gateway outcomes theorem at a concrete timed-out
invocation and a concrete raised exception. -/
theorem C6_gateway_outcomes_witness :
    (run_sky_cmd true ["status", "--format", "json"] 5 .timedOut =
        (false, "", timeoutMessage ["status", "--format", "json"] 5) ∧
      strContains (timeoutMessage ["status", "--format", "json"] 5)
        "timed out" = true) ∧
    run_sky_cmd true ["status"] 10 (.raised "No such file or directory") =
      (false, "", "No such file or directory") :=
  ⟨(C6_gateway_outcomes true ["status", "--format", "json"] 5 .timedOut).2.2.1 rfl,
   (C6_gateway_outcomes true ["status"] 10
      (.raised "No such file or directory")).2.2.2 "No such file or directory" rfl⟩

/-- One buffer push keeps the length bound (manager.py 620-624). -/
theorem pushRecent_length (msgs : List String) (m : String)
    (h : msgs.length ≤ 5) : (pushRecent msgs m).length ≤ 5 := by
  unfold pushRecent
  by_cases h2 : 5 < (msgs ++ [m]).length
  · rw [if_pos h2]
    simp [List.length_append] at h2 ⊢
    omega
  · rw [if_neg h2]
    simp [List.length_append] at h2 ⊢
    omega

/-- Processing one log event preserves the buffer bound on every table
entry. -/
theorem updateNodes_bounded (nodes : List (String × NodeInfo)) (ev : LogEvent)
    (now : Nat) (h : ∀ p ∈ nodes, p.2.recent_messages.length ≤ 5) :
    ∀ p ∈ updateNodes nodes ev now, p.2.recent_messages.length ≤ 5 := by
  intro p hp
  unfold updateNodes at hp
  rcases List.mem_map.mp hp with ⟨q, hq, rfl⟩
  have hq5 : q.2.recent_messages.length ≤ 5 := by
    by_cases hmem : nodes.any (fun p => p.1 == nodeKey ev.node ev.rank)
    · rw [if_pos hmem] at hq
      exact h q hq
    · rw [if_neg hmem] at hq
      rcases List.mem_append.mp hq with hq1 | hq2
      · exact h q hq1
      · simp at hq2
        rw [hq2]
        simp
  by_cases hk : (q.1 == nodeKey ev.node ev.rank) = true
  · simp only [hk, if_true]
    exact pushRecent_length _ _ hq5
  · rw [if_neg (by simp [hk])]
    exact hq5

/-- Folding any event sequence into the table preserves the buffer bound. -/
theorem foldlUpdate_bounded (now : Nat) (evs : List LogEvent) :
    ∀ nodes : List (String × NodeInfo),
      (∀ p ∈ nodes, p.2.recent_messages.length ≤ 5) →
      ∀ p ∈ evs.foldl (fun t e => updateNodes t e now) nodes,
        p.2.recent_messages.length ≤ 5 := by
  induction evs with
  | nil => intro nodes h; exact h
  | cons e rest ih =>
      intro nodes h
      exact ih _ (updateNodes_bounded nodes e now h)

/-- C9: for every sequence of parsed log events, every node entry's
recent-messages buffer stays at length at most 5; and inserting seven
messages for one node leaves exactly messages 3-7, in insertion order
(oldest-first eviction). -/
theorem C9_recent_messages_bounded_fifo :
    (∀ (evs : List LogEvent) (now : Nat),
      ∀ p ∈ evs.foldl (fun t e => updateNodes t e now) [],
        p.2.recent_messages.length ≤ 5) ∧
    (∀ (m1 m2 m3 m4 m5 m6 m7 node ip : String) (rank now : Nat),
      (([m1, m2, m3, m4, m5, m6, m7].map
          (fun m => LogEvent.mk node rank ip m)).foldl
        (fun t e => updateNodes t e now) []) =
      [(nodeKey node rank, ⟨node, rank, ip, [m3, m4, m5, m6, m7], now⟩)]) := by
  constructor
  · intro evs now
    exact foldlUpdate_bounded now evs [] (by intro p hp; cases hp)
  · intro m1 m2 m3 m4 m5 m6 m7 node ip rank now
    simp [updateNodes, pushRecent, nodeKey]

/-- C9 witness: the bound and the seven-message eviction at concrete
messages and a concrete node. -/
theorem C9_recent_messages_bounded_fifo_witness :
    (((nodeKey "worker8" 8,
        (⟨"worker8", 8, "172.31.41.250", ["m3", "m4", "m5", "m6", "m7"], 42⟩ :
          NodeInfo)) : String × NodeInfo).2.recent_messages.length ≤ 5) ∧
    ((["m1", "m2", "m3", "m4", "m5", "m6", "m7"].map
        (fun m => LogEvent.mk "worker8" 8 "172.31.41.250" m)).foldl
      (fun t e => updateNodes t e 42) []) =
      [(nodeKey "worker8" 8,
        ⟨"worker8", 8, "172.31.41.250", ["m3", "m4", "m5", "m6", "m7"], 42⟩)] := by
  constructor
  · exact C9_recent_messages_bounded_fifo.1
      ((["m1", "m2", "m3", "m4", "m5", "m6", "m7"].map
        (fun m => LogEvent.mk "worker8" 8 "172.31.41.250" m))) 42 _ (by decide)
  · exact C9_recent_messages_bounded_fifo.2 "m1" "m2" "m3" "m4" "m5" "m6" "m7"
      "worker8" "172.31.41.250" 8 42

/-- C10: when no tick observation ever sets the completion flag (no
terminal job status is seen) and the wall clock eventually reaches the
20-minute ceiling, the monitor loop stops and returns the distinct
timeout outcome; per-tick errors (the `raise` ticks) are absorbed by the
inner handler and never abort the loop, and the loop exits by returning
a value, never by raising. -/
theorem C10_monitor_times_out (jobName : String) (startTime : Nat)
    (ticks : List (Nat × TickInput))
    (hterm : ∀ ti ∈ ticks, ∀ st : MonState,
      (tickBody jobName st ti.2).completed = st.completed)
    (hceil : ∃ ti ∈ ticks, startTime + monitorCeiling ≤ ti.1) :
    monitor_deployment_progress_streaming jobName startTime ticks =
      some MonOutcome.timedOut := by
  unfold monitor_deployment_progress_streaming
  suffices h : ∀ ticks2 : List (Nat × TickInput),
      (∀ ti ∈ ticks2, ∀ st2 : MonState,
        (tickBody jobName st2 ti.2).completed = st2.completed) →
      (∃ ti ∈ ticks2, startTime + monitorCeiling ≤ ti.1) →
      ∀ st : MonState, st.completed = false →
      monitorLoop jobName startTime st ticks2 = some MonOutcome.timedOut by
    exact h ticks hterm hceil ⟨none, false⟩ rfl
  intro ticks2
  induction ticks2 with
  | nil =>
      intro _ hex st hst
      rcases hex with ⟨ti, hmem, _⟩
      cases hmem
  | cons hd tl ih =>
      intro hterm2 hex st hst
      obtain ⟨now, inp⟩ := hd
      show (if now - startTime < monitorCeiling ∧ st.completed = false then
          monitorLoop jobName startTime (tickBody jobName st inp) tl
        else some (if st.completed then .completed else .timedOut)) =
        some MonOutcome.timedOut
      by_cases hc : now - startTime < monitorCeiling ∧ st.completed = false
      · rw [if_pos hc]
        apply ih
        · intro ti hti st2
          exact hterm2 ti (List.mem_cons_of_mem _ hti) st2
        · rcases hex with ⟨ti, hti, hle⟩
          rcases List.mem_cons.mp hti with rfl | htl
          · exfalso
            have h1 := hc.1
            simp only [monitorCeiling] at h1 hle
            omega
          · exact ⟨ti, htl, hle⟩
        · rw [hterm2 (now, inp) (List.mem_cons_self _ _) st]
          exact hst
      · rw [if_neg hc]
        simp [hst]

/-- A tick whose polls all fail (status poll unsuccessful, empty
output). -/
def pollsQuiet : TickPolls :=
  ⟨false, "", fun _ => (false, ""), fun _ => (false, "")⟩

/-- C10 witness: a schedule with a raising tick, a failed-poll tick, and
a wall-clock reading past the 20-minute ceiling. -/
theorem C10_monitor_times_out_witness :
    monitor_deployment_progress_streaming "amauo-job" 0
      [(0, .raise "ConnectionError"), (3, .polls pollsQuiet),
       (1201, .raise "ConnectionError")] = some MonOutcome.timedOut := by
  apply C10_monitor_times_out
  · intro ti hti st
    simp only [List.mem_cons, List.not_mem_nil, or_false] at hti
    rcases hti with rfl | rfl | rfl <;> rfl
  · exact ⟨(1201, .raise "ConnectionError"), by simp, by decide⟩
